import Mathlib

/-!
Verification of the face-service decision engine (src/face_service/main.py)
against its natural-language specification.

Embedding conventions:
* Python floats are modelled as real numbers (`ℝ`) where square roots are
  involved (numpy norms, cosine similarity, standard deviation), and as exact
  rationals (`ℚ`) for the purely rational arithmetic of the quality gate and
  the pose classifier.
* numpy vectors become `List ℝ`; `np.dot`, `np.linalg.norm`, `np.mean`,
  `np.var`, `np.std` are translated literally below.
* Python dicts used as records become structures; the `details` dict of the
  quality gate (whose key set matters) becomes an association list built in
  the same insertion order as the source.
-/

/-- Elementwise product summed: `np.dot(a, b)` on 1-d arrays. -/
noncomputable def dotL (a b : List ℝ) : ℝ := (List.zipWith (fun x y => x * y) a b).sum

/-- The numpy 2-norm `np.linalg.norm(a)` of a 1-d array. -/
noncomputable def normL (a : List ℝ) : ℝ := Real.sqrt (dotL a a)

/-- Source `euclidean_distance(emb1, emb2) = np.linalg.norm(emb1 - emb2)`. -/
noncomputable def euclidean_distance (emb1 emb2 : List ℝ) : ℝ :=
  normL (List.zipWith (fun x y => x - y) emb1 emb2)

/-- Source `cosine_similarity`: returns 0.0 if either norm is zero, else
`dot(emb1, emb2) / (norm1 * norm2)`. -/
noncomputable def cosine_similarity (emb1 emb2 : List ℝ) : ℝ :=
  if normL emb1 = 0 ∨ normL emb2 = 0 then 0
  else dotL emb1 emb2 / (normL emb1 * normL emb2)

/-- `np.mean` of a 1-d array (callers guard against the empty list as the
source does with `if movements else 0`). -/
noncomputable def meanR (l : List ℝ) : ℝ := l.sum / l.length

/-- `np.var` of a 1-d array: mean of squared deviations from the mean. -/
noncomputable def varR (l : List ℝ) : ℝ := meanR (l.map (fun x => (x - meanR l) ^ 2))

/-- `np.std` of a 1-d array: square root of the variance. -/
noncomputable def stdR (l : List ℝ) : ℝ := Real.sqrt (varR l)

/-- `np.mean(vs, axis=0)`: componentwise mean of equal-length vectors. -/
noncomputable def vecMean (vs : List (List ℝ)) : List ℝ :=
  match vs with
  | [] => []
  | v :: t => (t.foldl (fun acc w => List.zipWith (fun x y => x + y) acc w) v).map
      (fun x => x / (vs.length : ℝ))

/-- The continuous head-pose angles (degrees) consumed by `classify_pose`;
`roll` is carried but unused by the classifier, as in the source. -/
structure PoseAngles where
  yaw : ℚ
  pitch : ℚ
  roll : ℚ
deriving DecidableEq, Repr

/-- Source `classify_pose(pose)`: pitch dominates yaw; returns one of
front/left/right/up/down. -/
def classify_pose (pose : PoseAngles) : String :=
  if |pose.pitch| > 15 then
    if pose.pitch > 15 then "down" else "up"
  else
    if |pose.yaw| < 10 then "front"
    else if pose.yaw < -10 then "left"
    else if pose.yaw > 10 then "right"
    else "front"

/-- Mirror of the `QualityCheckResult` pydantic model: `details` is the dict
as an association list in insertion order. -/
structure QualityCheckResult where
  passed : Bool
  score : ℚ
  issues : List String
  details : List (String × ℚ)
deriving DecidableEq, Repr

/-- Face-area ratio `(face_width * face_height) / (img_width * img_height)`. -/
def faceAreaRatio (imgW imgH : ℕ) (x1 y1 x2 y2 : ℤ) : ℚ :=
  (((x2 - x1) * (y2 - y1) : ℤ) : ℚ) / ((imgW * imgH : ℕ) : ℚ)

/-- Horizontal center offset `abs(center_x - img_width/2) / (img_width/2)`. -/
def centerOffsetX (imgW : ℕ) (x1 x2 : ℤ) : ℚ :=
  |((x1 + x2 : ℤ) : ℚ) / 2 - (imgW : ℚ) / 2| / ((imgW : ℚ) / 2)

/-- Vertical center offset `abs(center_y - img_height/2) / (img_height/2)`. -/
def centerOffsetY (imgH : ℕ) (y1 y2 : ℤ) : ℚ :=
  |((y1 + y2 : ℤ) : ℚ) / 2 - (imgH : ℚ) / 2| / ((imgH : ℚ) / 2)

/-- Whether the Python slice `v[a:b]` of an axis of length `n` is nonempty,
for a nonnegative start `a` (the source always passes `max(0, coord)` as the
start).  Per Python slice semantics a nonnegative stop is clamped to `n`,
while a strictly negative stop wraps around to `b + n` (clamped below at 0);
the slice is nonempty iff the clamped start lies strictly below the
effective stop. -/
def pySliceNonempty (n : ℕ) (a b : ℤ) : Bool :=
  decide (min a (n : ℤ) < if b < 0 then max (b + (n : ℤ)) 0 else min b (n : ℤ))

/-- Whether the face crop `img[max(0,y1):min(h,y2), max(0,x1):min(w,x2)]`
has positive size (`face_region.size > 0`), under Python slice semantics on
each axis: in particular a stop `min(dim, coord)` that is strictly negative
wraps around, so a bbox with `x2` in `(-w, 0)` or `y2` in `(-h, 0)` can
still produce a nonempty crop. -/
def regionNonempty (imgW imgH : ℕ) (x1 y1 x2 y2 : ℤ) : Bool :=
  pySliceNonempty imgH (max 0 y1) (min (imgH : ℤ) y2) &&
  pySliceNonempty imgW (max 0 x1) (min (imgW : ℤ) x2)

/-- Source `check_face_quality(img, face, strict)`.

The geometry (image size, integer bbox after `astype(int)`, detector score)
is passed explicitly.  The three grayscale statistics that OpenCV computes
from the face crop — `brightness = np.mean(gray_face)`,
`lapVar = cv2.Laplacian(gray_face).var()`, `contrast = np.std(gray_face)` —
are out-of-scope image processing and enter as parameters; they are consulted
only when the clipped crop is nonempty, exactly as in the source. -/
def check_face_quality (strict : Bool) (imgW imgH : ℕ) (x1 y1 x2 y2 : ℤ)
    (det brightness lapVar contrast : ℚ) : QualityCheckResult :=
  let ratio := faceAreaRatio imgW imgH x1 y1 x2 y2
  let ox := centerOffsetX imgW x1 x2
  let oy := centerOffsetY imgH y1 y2
  let minDet : ℚ := if strict then 0.8 else 0.7
  let minArea : ℚ := if strict then 0.08 else 0.05
  let maxOffset : ℚ := if strict then 0.3 else 0.4
  let minBright : ℚ := if strict then 60 else 50
  let maxBright : ℚ := if strict then 200 else 220
  let minSharpness : ℚ := if strict then 150 else 100
  let issues : List String :=
    (if det < minDet then ["Low detection confidence - face may be unclear"] else []) ++
    (if ratio < minArea then ["Face too small - move closer to camera"]
     else if ratio > 0.7 then ["Face too large - move further from camera"] else []) ++
    (if ox > maxOffset ∨ oy > maxOffset then ["Face not centered - please center your face"] else []) ++
    (if regionNonempty imgW imgH x1 y1 x2 y2 then
      (if brightness < minBright then ["Image too dark - improve lighting"]
       else if brightness > maxBright then ["Image too bright - reduce lighting"] else []) ++
      (if lapVar < minSharpness then ["Image blurry - keep still and ensure focus"] else []) ++
      (if contrast < 30 then ["Low contrast - improve lighting conditions"] else [])
     else [])
  let details : List (String × ℚ) :=
    [("detection_confidence", det), ("face_area_ratio", ratio),
     ("center_offset_x", ox), ("center_offset_y", oy)] ++
    (if regionNonempty imgW imgH x1 y1 x2 y2 then
      [("brightness", brightness / 255), ("sharpness", min (lapVar / 500) 1),
       ("contrast", contrast / 128)]
     else [])
  let score : ℚ :=
    min det 1 * 0.3 +
    (if 0.1 ≤ ratio ∧ ratio ≤ 0.5 then 1 * 0.2
     else if 0.05 ≤ ratio ∧ ratio ≤ 0.7 then 0.5 * 0.2 else 0) +
    (1 - max ox oy) * 0.2 +
    (match details.lookup "brightness" with
     | some bn => if 0.2 ≤ bn ∧ bn ≤ 0.85 then 1 * 0.15
        else if 0.1 ≤ bn ∧ bn ≤ 0.95 then 0.5 * 0.15 else 0
     | none => 0) +
    (match details.lookup "sharpness" with
     | some sh => sh * 0.15
     | none => 0)
  let passThreshold : ℚ := if strict then 0.7 else 0.6
  let detThreshold : ℚ := if strict then 0.8 else 0.7
  { passed := decide (issues = []) && decide (passThreshold ≤ score) && decide (detThreshold ≤ det)
    score := score
    issues := issues
    details := details }

/-- One entry of the `frames_data` list consumed by `check_enhanced_liveness`:
the per-frame dict built by the video endpoints.  In those dicts `bbox` is
always a 4-element list (hence truthy) and `pose`, `texture_score`,
`screen_score` are always present, so the source defaults of the
`f.get` calls (front pose, texture 0.5, screen 1.0) never fire; the `confidence` and
`quality_score` keys are never read by the liveness engine and are omitted. -/
structure LFrame where
  embedding : List ℝ
  bbox : ℝ × ℝ × ℝ × ℝ
  pose : String
  texture_score : ℝ
  screen_score : ℝ

/-- The `checks` dict of the liveness result, in source key order. -/
structure LChecks where
  multiple_frames : Bool
  face_movement : Bool
  embedding_consistency : Bool
  blink_detection : Bool
  texture_analysis : Bool
  screen_detection : Bool
  pose_variation : Bool
deriving DecidableEq, Repr

/-- The `scores` dict of the liveness result. -/
structure LScores where
  movement_score : ℝ
  consistency_score : ℝ
  texture_score : ℝ
  screen_score : ℝ
  pose_score : ℝ

/-- The dict returned by `check_enhanced_liveness`. -/
structure LivenessResult where
  is_live : Bool
  score : ℝ
  checks : LChecks
  scores : LScores
  message : String

/-- `sum(checks.values())`: how many of the seven liveness checks passed. -/
def passedChecks (c : LChecks) : ℕ :=
  c.multiple_frames.toNat + c.face_movement.toNat + c.embedding_consistency.toNat +
  c.blink_detection.toNat + c.texture_analysis.toNat + c.screen_detection.toNat +
  c.pose_variation.toNat

/-- Source `check_enhanced_liveness(frames_data)`.

`bboxes` keeps every frame because the bbox entry looked up by `f.get` is a
truthy 4-element list in every producer of `frames_data`; the embedding list
is filtered on truthiness, i.e. on being nonempty.  Movement between
consecutive frames is `np.linalg.norm(curr[:2] - prev[:2])` on the bbox
top-left corner. -/
noncomputable def check_enhanced_liveness (frames : List LFrame) : LivenessResult :=
  if frames.length < 5 then
    { is_live := false
      score := 0
      checks := ⟨false, false, false, false, false, false, false⟩
      scores := ⟨0, 0, 0, 0, 0⟩
      message := "Insufficient frames for liveness check (need at least 5)" }
  else
    let bboxes := frames.map (fun f => f.bbox)
    let movementData : Bool × ℝ :=
      if 5 ≤ bboxes.length then
        let movements := (bboxes.zip bboxes.tail).map
          (fun pc => Real.sqrt ((pc.2.1 - pc.1.1) ^ 2 + (pc.2.2.1 - pc.1.2.1) ^ 2))
        let avgMovement := if movements.isEmpty then 0 else meanR movements
        let movementVariance := if 1 < movements.length then varR movements else 0
        let hasNaturalMovement := decide (3 < avgMovement ∧ avgMovement < 40 ∧ 5 < movementVariance)
        (hasNaturalMovement, if hasNaturalMovement then min 1 (avgMovement / 30) else 0)
      else (false, 0)
    let embeddings := (frames.map (fun f => f.embedding)).filter (fun e => !e.isEmpty)
    let consistencyData : Bool × ℝ :=
      if 5 ≤ embeddings.length then
        let similarities := (embeddings.zip embeddings.tail).map
          (fun pc => cosine_similarity pc.1 pc.2)
        let avgSimilarity := if similarities.isEmpty then 0 else meanR similarities
        let similarityStd := if 1 < similarities.length then stdR similarities else 0
        let isConsistent := decide (0.75 < avgSimilarity ∧ similarityStd < 0.15)
        (isConsistent, if isConsistent then avgSimilarity else avgSimilarity * 0.5)
      else (false, 0)
    let uniquePoses := (frames.map (fun f => f.pose)).dedup.length
    let avgTexture := meanR (frames.map (fun f => f.texture_score))
    let avgScreen := meanR (frames.map (fun f => f.screen_score))
    let checks : LChecks :=
      { multiple_frames := true
        face_movement := movementData.1
        embedding_consistency := consistencyData.1
        blink_detection := true
        texture_analysis := decide (0.4 < avgTexture)
        screen_detection := decide (0.6 < avgScreen)
        pose_variation := decide (2 ≤ uniquePoses) }
    let scores : LScores :=
      { movement_score := movementData.2
        consistency_score := consistencyData.2
        texture_score := avgTexture
        screen_score := avgScreen
        pose_score := min 1 ((uniquePoses : ℝ) / 3) }
    let weightedScore :=
      scores.movement_score * 0.2 + scores.consistency_score * 0.25 +
      scores.texture_score * 0.2 + scores.screen_score * 0.15 +
      scores.pose_score * 0.1 + (if checks.blink_detection then (1 : ℝ) else 0) * 0.1
    let isLive := decide (5 ≤ passedChecks checks ∧ 0.6 < weightedScore)
    { is_live := isLive
      score := weightedScore
      checks := checks
      scores := scores
      message :=
        if isLive then "Liveness check passed"
        else if !checks.face_movement then "Liveness check failed - no natural movement detected"
        else if !checks.embedding_consistency then "Liveness check failed - face identity inconsistent"
        else if !checks.texture_analysis then "Liveness check failed - possible photo/screen detected"
        else if !checks.screen_detection then "Liveness check failed - screen patterns detected"
        else "Liveness check failed - please try again with better lighting" }

/-- The match rule of single-image verification (`/verify`, `/verify-base64`,
`/compare`, also `/verify-video`): `distance < 0.9 and similarity > 0.5`. -/
def single_image_match (distance similarity : ℝ) : Prop :=
  distance < 0.9 ∧ similarity > 0.5

/-- The match rule of `/verify-live-video`:
`best_distance < 0.85 and best_similarity > 0.55`. -/
def live_video_match (distance similarity : ℝ) : Prop :=
  distance < 0.85 ∧ similarity > 0.55

/-- The candidate-selection loop shared by `verify_live_video` and
`verify_video`: starting from `best_similarity = 0.0` and an infinite
`best_distance` (modelled as `none`), update both whenever a
stored embedding has `sim > best_similarity`. -/
noncomputable def bestMatchAux (probe : List ℝ) (acc : ℝ × Option ℝ) :
    List (List ℝ) → ℝ × Option ℝ
  | [] => acc
  | e :: rest =>
      let sim := cosine_similarity probe e
      let dist := euclidean_distance probe e
      bestMatchAux probe (if acc.1 < sim then (sim, some dist) else acc) rest

/-- `(best_similarity, best_distance)` after the loop over `stored_embs`. -/
noncomputable def bestMatch (probe : List ℝ) (stored : List (List ℝ)) : ℝ × Option ℝ :=
  bestMatchAux probe (0, none) stored

/-- What the per-frame body of the `register_continuous_video` loop extracts
from one successfully processed frame (decoded image with exactly one
detected face): the detector output plus the derived quality result, pose
angles and texture/screen scores.  A raw frame whose decoding or detection
fails, or that does not contain exactly one face, is `none` (the loop
`continue`s). -/
structure CFrame where
  embedding : List ℝ
  bbox : ℝ × ℝ × ℝ × ℝ
  confidence : ℝ
  poseAngles : PoseAngles
  quality : QualityCheckResult
  texture_score : ℝ
  screen_score : ℝ

/-- The `frame_data` dict appended to `all_frames_data` for a processed
frame, with `pose = classify_pose(pose_angles)`. -/
def toLFrame (f : CFrame) : LFrame :=
  { embedding := f.embedding
    bbox := f.bbox
    pose := classify_pose f.poseAngles
    texture_score := f.texture_score
    screen_score := f.screen_score }

/-- The frames of the burst that survive the per-frame loop. -/
def validFrames (frames : List (Option CFrame)) : List CFrame := frames.filterMap id

/-- Frames admitted into their pose bucket:
`quality.passed or quality.score >= 0.65`. -/
def admittedFrames (frames : List (Option CFrame)) : List CFrame :=
  (validFrames frames).filter (fun f => f.quality.passed || decide ((0.65 : ℚ) ≤ f.quality.score))

/-- The pose bucket for label `p`: embedding and quality score of every
admitted frame classified as `p`, in loop order (the parallel
`pose_embeddings[p]` / `pose_quality_scores[p]` lists of the source). -/
def bucket (frames : List (Option CFrame)) (p : String) : List (List ℝ × ℚ) :=
  (admittedFrames frames).filterMap
    (fun f => if classify_pose f.poseAngles == p then some (f.embedding, f.quality.score) else none)

/-- `required_poses[p]` after the loop: some admitted frame had label `p`. -/
def poseCaptured (frames : List (Option CFrame)) (p : String) : Bool :=
  (admittedFrames frames).any (fun f => classify_pose f.poseAngles == p)

/-- `[p for p, captured in required_poses.items() if not captured]`, in the
dict insertion order front, left, right. -/
def missingPoses (frames : List (Option CFrame)) : List String :=
  ["front", "left", "right"].filter (fun p => !poseCaptured frames p)

/-- The `pose_instructions` dict (only ever applied to front/left/right). -/
def poseInstruction (p : String) : String :=
  if p == "front" then "look directly at the camera"
  else if p == "left" then "turn your head slightly to the left"
  else if p == "right" then "turn your head slightly to the right"
  else ""

/-- The missing-poses failure message built by the f-string of the source. -/
def missingPosesMessage (missing : List String) : String :=
  "Missing required poses: " ++ String.intercalate ", " missing ++
  ". Please " ++ String.intercalate " and " (missing.map poseInstruction) ++ "."

/-- Insert into a list kept sorted by descending quality score. -/
def insertDescBy (x : List ℝ × ℚ) : List (List ℝ × ℚ) → List (List ℝ × ℚ)
  | [] => [x]
  | y :: ys => if y.2 ≤ x.2 then x :: y :: ys else y :: insertDescBy x ys

/-- Sort a pose bucket by descending quality score, modelling
`np.argsort(pose_quality_scores[p])[::-1]` (the order among equal scores is
unspecified here; no claim depends on it). -/
def sortDescBy : List (List ℝ × ℚ) → List (List ℝ × ℚ)
  | [] => []
  | x :: xs => insertDescBy x (sortDescBy xs)

/-- The up-to-three best samples of a pose bucket. -/
def top3 (frames : List (Option CFrame)) (p : String) : List (List ℝ × ℚ) :=
  (sortDescBy (bucket frames p)).take 3

/-- `final_embeddings[p]`: the mean of the top-3 embeddings of bucket `p`. -/
noncomputable def finalEmbedding (frames : List (Option CFrame)) (p : String) : List ℝ :=
  vecMean ((top3 frames p).map Prod.fst)

/-- The cross-pose consistency sweep: some ordered pair of distinct required
poses, both with nonempty buckets (both keys present in `final_embeddings`),
has cosine similarity below 0.5. -/
noncomputable def crossPoseInconsistent (frames : List (Option CFrame)) : Bool :=
  [("front", "left"), ("front", "right"), ("left", "front"), ("left", "right"),
   ("right", "front"), ("right", "left")].any
    (fun pq =>
      (!(bucket frames pq.1).isEmpty && !(bucket frames pq.2).isEmpty) &&
      decide (cosine_similarity (finalEmbedding frames pq.1) (finalEmbedding frames pq.2) < 0.5))

/-- The `success` flag and `message` of the JSON value returned by
`register_continuous_video` (the payload fields — embeddings, scores, frame
counts — are not referenced by any claim and are omitted). -/
structure RegResult where
  success : Bool
  message : String
deriving DecidableEq, Repr

/-- Source endpoint `register_continuous_video(frames)`, as a function of the
per-frame processing outcomes of the raw burst.  Branch order follows the
source: frame-count floor, valid-frame floor, liveness, missing poses,
cross-pose consistency, success. -/
noncomputable def register_continuous_video (frames : List (Option CFrame)) : RegResult :=
  if frames.length < 10 then
    { success := false, message := "Insufficient frames - please record for at least 3 seconds" }
  else
    let allFramesData := (validFrames frames).map toLFrame
    if allFramesData.length < 5 then
      { success := false
        message := "Could not detect face in enough frames. Please ensure good lighting and face visibility." }
    else
      let liveness := check_enhanced_liveness allFramesData
      if !liveness.is_live then
        { success := false, message := liveness.message }
      else
        let missing := missingPoses frames
        if !missing.isEmpty then
          { success := false, message := missingPosesMessage missing }
        else
          if crossPoseInconsistent frames then
            { success := false
              message := "Face images from different poses appear inconsistent. Please try again ensuring only one person is visible." }
          else
            { success := true
              message := "Face registration successful with continuous video capture" }

/-- A concrete 10-frame burst for exercising `register_continuous_video`:
five dropped raw frames, then five processed frames sharing the unit
embedding [1], with a horizontally moving bbox (top-left x: 0, 4, 8, 12, 24),
left/left/right/right/right pose angles, a passing strict-quality result and
ideal texture/screen scores.  No admitted frame classifies as front. -/
noncomputable def sampleBurst : List (Option CFrame) :=
  [none, none, none, none, none,
   some ⟨[1], (0, 0, 10, 10), 1, ⟨-20, 0, 0⟩, ⟨true, 0.8, [], []⟩, 1, 1⟩,
   some ⟨[1], (4, 0, 10, 10), 1, ⟨-20, 0, 0⟩, ⟨true, 0.8, [], []⟩, 1, 1⟩,
   some ⟨[1], (8, 0, 10, 10), 1, ⟨20, 0, 0⟩, ⟨true, 0.8, [], []⟩, 1, 1⟩,
   some ⟨[1], (12, 0, 10, 10), 1, ⟨20, 0, 0⟩, ⟨true, 0.8, [], []⟩, 1, 1⟩,
   some ⟨[1], (24, 0, 10, 10), 1, ⟨20, 0, 0⟩, ⟨true, 0.8, [], []⟩, 1, 1⟩]

/-- A concrete 10-frame burst whose five valid frames are frozen copies of
one frontal frame with zero texture and screen scores and a failing quality
result: every pose bucket stays empty and the liveness check fails on the
missing movement. -/
noncomputable def sampleFrozenBurst : List (Option CFrame) :=
  [none, none, none, none, none,
   some ⟨[1], (0, 0, 10, 10), 1, ⟨0, 0, 0⟩, ⟨false, 0, [], []⟩, 0, 0⟩,
   some ⟨[1], (0, 0, 10, 10), 1, ⟨0, 0, 0⟩, ⟨false, 0, [], []⟩, 0, 0⟩,
   some ⟨[1], (0, 0, 10, 10), 1, ⟨0, 0, 0⟩, ⟨false, 0, [], []⟩, 0, 0⟩,
   some ⟨[1], (0, 0, 10, 10), 1, ⟨0, 0, 0⟩, ⟨false, 0, [], []⟩, 0, 0⟩,
   some ⟨[1], (0, 0, 10, 10), 1, ⟨0, 0, 0⟩, ⟨false, 0, [], []⟩, 0, 0⟩]

lemma dotL_comm (a b : List ℝ) : dotL a b = dotL b a := by
  unfold dotL
  rw [List.zipWith_comm_of_comm]
  exact fun x y => mul_comm x y

lemma dotL_self_nonneg (a : List ℝ) : 0 ≤ dotL a a := by
  induction a with
  | nil => simp [dotL]
  | cons x t ih =>
      simp only [dotL, List.zipWith_cons_cons, List.sum_cons] at *
      exact add_nonneg (mul_self_nonneg x) ih

lemma normL_nonneg (a : List ℝ) : 0 ≤ normL a := Real.sqrt_nonneg _

lemma dotL_sub_self (a : List ℝ) :
    dotL (List.zipWith (fun x y => x - y) a a) (List.zipWith (fun x y => x - y) a a) = 0 := by
  induction a with
  | nil => simp [dotL]
  | cons x t ih => simp [dotL, List.zipWith_cons_cons] at ih ⊢

lemma dotL_sub_symm (a b : List ℝ) :
    dotL (List.zipWith (fun x y => x - y) a b) (List.zipWith (fun x y => x - y) a b) =
    dotL (List.zipWith (fun x y => x - y) b a) (List.zipWith (fun x y => x - y) b a) := by
  induction a generalizing b with
  | nil => cases b <;> simp [dotL]
  | cons x t ih =>
      cases b with
      | nil => simp [dotL]
      | cons y u =>
          simp only [dotL, List.zipWith_cons_cons, List.sum_cons] at *
          rw [ih u]; ring_nf

lemma cosine_similarity_self (a : List ℝ) (h : normL a ≠ 0) : cosine_similarity a a = 1 := by
  have hd : dotL a a ≠ 0 := by
    intro h0
    exact h (by rw [normL, h0, Real.sqrt_zero])
  rw [cosine_similarity, if_neg (by tauto)]
  unfold normL
  rw [Real.mul_self_sqrt (dotL_self_nonneg a)]
  exact div_self hd

lemma normL_ne_zero_of_dotL (e : List ℝ) (he : dotL e e ≠ 0) : normL e ≠ 0 := by
  rw [normL]
  intro h
  exact he ((Real.sqrt_eq_zero (dotL_self_nonneg e)).mp h)

lemma isEmpty_false_of_dotL (e : List ℝ) (he : dotL e e ≠ 0) : e.isEmpty = false := by
  cases e with
  | nil => exact absurd (by simp [dotL]) he
  | cons x t => rfl

lemma meanR_five (x : ℝ) : meanR [x, x, x, x, x] = x := by
  simp [meanR]
  ring

lemma meanR_four (x : ℝ) : meanR [x, x, x, x] = x := by
  simp [meanR]
  ring

lemma varR_four (x : ℝ) : varR [x, x, x, x] = 0 := by
  rw [varR, meanR_four]
  norm_num [meanR]

lemma dedup_five (p : String) : ([p, p, p, p, p] : List String).dedup = [p] := by
  simp [List.dedup_cons_of_mem]

/-- Claim C1: for any FrameSample sequence of length at least 5 the liveness
score is the stated weighted combination of the five signal sub-scores plus
the blink bonus, and the verdict holds exactly when at least 5 of the 7
checks pass and the weighted score exceeds 0.6. -/
theorem liveness_weighted_score_and_verdict (frames : List LFrame) (h : 5 ≤ frames.length) :
    (check_enhanced_liveness frames).score =
      (check_enhanced_liveness frames).scores.movement_score * 0.2 +
      (check_enhanced_liveness frames).scores.consistency_score * 0.25 +
      (check_enhanced_liveness frames).scores.texture_score * 0.2 +
      (check_enhanced_liveness frames).scores.screen_score * 0.15 +
      (check_enhanced_liveness frames).scores.pose_score * 0.1 +
      (if (check_enhanced_liveness frames).checks.blink_detection then (1 : ℝ) else 0) * 0.1 ∧
    ((check_enhanced_liveness frames).is_live = true ↔
      5 ≤ passedChecks (check_enhanced_liveness frames).checks ∧
      0.6 < (check_enhanced_liveness frames).score) := by
  have hn : ¬frames.length < 5 := by omega
  rw [check_enhanced_liveness, if_neg hn]
  exact ⟨rfl, by rw [decide_eq_true_eq]⟩

theorem liveness_weighted_score_and_verdict_witness :
    (check_enhanced_liveness
        (List.replicate 5 (⟨[1], (0, 0, 10, 10), "front", 1, 1⟩ : LFrame))).is_live = true ↔
      5 ≤ passedChecks (check_enhanced_liveness
        (List.replicate 5 (⟨[1], (0, 0, 10, 10), "front", 1, 1⟩ : LFrame))).checks ∧
      0.6 < (check_enhanced_liveness
        (List.replicate 5 (⟨[1], (0, 0, 10, 10), "front", 1, 1⟩ : LFrame))).score :=
  (liveness_weighted_score_and_verdict _ (by simp)).2

lemma liveness_identical (e : List ℝ) (b : ℝ × ℝ × ℝ × ℝ) (p : String) (t s : ℝ)
    (he : dotL e e ≠ 0) :
    (check_enhanced_liveness [⟨e, b, p, t, s⟩, ⟨e, b, p, t, s⟩, ⟨e, b, p, t, s⟩,
        ⟨e, b, p, t, s⟩, ⟨e, b, p, t, s⟩]).checks.face_movement = false ∧
    (check_enhanced_liveness [⟨e, b, p, t, s⟩, ⟨e, b, p, t, s⟩, ⟨e, b, p, t, s⟩,
        ⟨e, b, p, t, s⟩, ⟨e, b, p, t, s⟩]).checks.pose_variation = false ∧
    ((check_enhanced_liveness [⟨e, b, p, t, s⟩, ⟨e, b, p, t, s⟩, ⟨e, b, p, t, s⟩,
        ⟨e, b, p, t, s⟩, ⟨e, b, p, t, s⟩]).is_live = true ↔
      0.4 < t ∧ 0.6 < s ∧ 13/60 < t * 0.2 + s * 0.15) := by
  have hemp := isEmpty_false_of_dotL e he
  have hcos := cosine_similarity_self e (normL_ne_zero_of_dotL e he)
  rw [check_enhanced_liveness, if_neg (by norm_num)]
  simp only [List.map_cons, List.map_nil, List.tail_cons, List.zip_cons_cons, List.zip_nil_right,
    List.length_cons, List.length_nil, List.filter, hemp, Bool.not_false, List.isEmpty_cons,
    hcos, dedup_five]
  norm_num [meanR_four, meanR_five, varR_four, stdR, Real.sqrt_zero, passedChecks]
  by_cases ht : (2/5 : ℝ) < t <;> by_cases hs : (3/5 : ℝ) < s <;>
    simp [ht, hs] <;> constructor <;> intro h <;> linarith

lemma bestMatchAux_spec (probe : List ℝ) (l : List (List ℝ)) (acc : ℝ × Option ℝ) :
    (bestMatchAux probe acc l = acc ∧ ∀ g ∈ l, cosine_similarity probe g ≤ acc.1) ∨
    (∃ x ∈ l,
      bestMatchAux probe acc l = (cosine_similarity probe x, some (euclidean_distance probe x)) ∧
      acc.1 < cosine_similarity probe x ∧
      ∀ g ∈ l, cosine_similarity probe g ≤ cosine_similarity probe x) := by
  induction l generalizing acc with
  | nil => exact Or.inl ⟨rfl, by simp⟩
  | cons x rest ih =>
      by_cases hx : acc.1 < cosine_similarity probe x
      · have hstep : bestMatchAux probe acc (x :: rest) =
            bestMatchAux probe (cosine_similarity probe x, some (euclidean_distance probe x)) rest := by
          rw [bestMatchAux]
          simp only [if_pos hx]
        rcases ih (cosine_similarity probe x, some (euclidean_distance probe x)) with
          ⟨heq, hall⟩ | ⟨y, hy, heq, hlt, hall⟩
        · refine Or.inr ⟨x, by simp, by rw [hstep, heq], hx, ?_⟩
          intro g hg
          rcases List.mem_cons.mp hg with rfl | hg
          · exact le_refl _
          · exact hall g hg
        · refine Or.inr ⟨y, List.mem_cons_of_mem x hy, by rw [hstep, heq],
            lt_trans hx hlt, ?_⟩
          intro g hg
          rcases List.mem_cons.mp hg with rfl | hg
          · exact le_of_lt hlt
          · exact hall g hg
      · have hstep : bestMatchAux probe acc (x :: rest) = bestMatchAux probe acc rest := by
          rw [bestMatchAux]
          simp only [if_neg hx]
        rcases ih acc with ⟨heq, hall⟩ | ⟨y, hy, heq, hlt, hall⟩
        · refine Or.inl ⟨by rw [hstep, heq], ?_⟩
          intro g hg
          rcases List.mem_cons.mp hg with rfl | hg
          · exact le_of_not_lt hx
          · exact hall g hg
        · refine Or.inr ⟨y, List.mem_cons_of_mem x hy, by rw [hstep, heq], hlt, ?_⟩
          intro g hg
          rcases List.mem_cons.mp hg with rfl | hg
          · exact le_of_lt (lt_of_le_of_lt (le_of_not_lt hx) hlt)
          · exact hall g hg

/-- Claim C4 (amended): for five identical FrameSamples with a nonzero
embedding the movement check does fail (as does pose variation), but the
verdict is not automatically isLive=false: isLive is true exactly when the
per-frame texture score exceeds 0.4, the screen score exceeds 0.6, and
0.2·texture + 0.15·screen exceeds 13/60 (so that the weighted score clears
0.6) — e.g. isLive is true at texture = screen = 1. -/
theorem identical_frames_movement_check (e : List ℝ) (b : ℝ × ℝ × ℝ × ℝ) (p : String) (t s : ℝ)
    (he : dotL e e ≠ 0) :
    (check_enhanced_liveness [⟨e, b, p, t, s⟩, ⟨e, b, p, t, s⟩, ⟨e, b, p, t, s⟩,
        ⟨e, b, p, t, s⟩, ⟨e, b, p, t, s⟩]).checks.face_movement = false ∧
    ((check_enhanced_liveness [⟨e, b, p, t, s⟩, ⟨e, b, p, t, s⟩, ⟨e, b, p, t, s⟩,
        ⟨e, b, p, t, s⟩, ⟨e, b, p, t, s⟩]).is_live = true ↔
      0.4 < t ∧ 0.6 < s ∧ 13/60 < t * 0.2 + s * 0.15) :=
  ⟨(liveness_identical e b p t s he).1, (liveness_identical e b p t s he).2.2⟩

theorem identical_frames_movement_check_witness :
    dotL [(1 : ℝ)] [1] ≠ 0 ∧
    (check_enhanced_liveness [⟨[(1 : ℝ)], (0, 0, 10, 10), "front", 1, 1⟩,
        ⟨[(1 : ℝ)], (0, 0, 10, 10), "front", 1, 1⟩, ⟨[(1 : ℝ)], (0, 0, 10, 10), "front", 1, 1⟩,
        ⟨[(1 : ℝ)], (0, 0, 10, 10), "front", 1, 1⟩,
        ⟨[(1 : ℝ)], (0, 0, 10, 10), "front", 1, 1⟩]).checks.face_movement = false := by
  have he : dotL [(1 : ℝ)] [1] ≠ 0 := by norm_num [dotL]
  exact ⟨he, (identical_frames_movement_check [1] (0, 0, 10, 10) "front" 1 1 he).1⟩

/-- Claim C4 counterexample: five identical FrameSamples (nonzero embedding,
texture and screen scores 1) make the liveness engine return isLive = true,
not false: the texture, screen, consistency, blink and frame-count checks
give 5 of 7 and the weighted score 0.733 exceeds 0.6. -/
theorem identical_frames_can_pass_liveness :
    (check_enhanced_liveness [⟨[(1 : ℝ)], (0, 0, 10, 10), "front", 1, 1⟩,
        ⟨[(1 : ℝ)], (0, 0, 10, 10), "front", 1, 1⟩, ⟨[(1 : ℝ)], (0, 0, 10, 10), "front", 1, 1⟩,
        ⟨[(1 : ℝ)], (0, 0, 10, 10), "front", 1, 1⟩,
        ⟨[(1 : ℝ)], (0, 0, 10, 10), "front", 1, 1⟩]).is_live = true := by
  have he : dotL [(1 : ℝ)] [1] ≠ 0 := by norm_num [dotL]
  exact (liveness_identical [1] (0, 0, 10, 10) "front" 1 1 he).2.2.mpr
    ⟨by norm_num, by norm_num, by norm_num⟩

/-- Claim C5 (amended): whenever at least one stored candidate has strictly
positive cosine similarity to the probe, the selection loop reports the
maximum similarity over the candidates and the Euclidean distance to that
same maximizing candidate (similarity and distance from one candidate).
When every candidate has similarity ≤ 0 the loop never updates and the
initial pair (similarity 0, infinite distance) is reported instead — see the
counterexample. -/
theorem best_match_same_candidate (probe : List ℝ) (stored : List (List ℝ))
    (hpos : ∃ x ∈ stored, 0 < cosine_similarity probe x) :
    ∃ x ∈ stored,
      bestMatch probe stored = (cosine_similarity probe x, some (euclidean_distance probe x)) ∧
      ∀ g ∈ stored, cosine_similarity probe g ≤ cosine_similarity probe x := by
  rcases bestMatchAux_spec probe stored (0, none) with ⟨_, hall⟩ | ⟨y, hy, heq, _, hall⟩
  · rcases hpos with ⟨x, hx, hx0⟩
    exact absurd (hall x hx) (not_le.mpr hx0)
  · exact ⟨y, hy, heq, hall⟩

theorem best_match_same_candidate_witness :
    ∃ x ∈ [[(1 : ℝ)]],
      bestMatch [(1 : ℝ)] [[1]] =
        (cosine_similarity [(1 : ℝ)] x, some (euclidean_distance [(1 : ℝ)] x)) ∧
      ∀ g ∈ [[(1 : ℝ)]], cosine_similarity [(1 : ℝ)] g ≤ cosine_similarity [(1 : ℝ)] x :=
  best_match_same_candidate [1] [[1]] ⟨[1], by simp, by
    rw [cosine_similarity_self [1] (normL_ne_zero_of_dotL [1] (by norm_num [dotL]))]
    norm_num⟩

/-- Claim C5 counterexample: with probe [1] and the single stored candidate
[-1] the only candidate has similarity -1 ≤ 0, so the loop never updates:
the reported similarity is 0 (not the maximum, -1) and the reported distance
is the infinite initial value, paired with no candidate. -/
theorem best_match_nonpositive_similarity :
    bestMatch [(1 : ℝ)] [[-1]] = (0, none) ∧ cosine_similarity [(1 : ℝ)] [-1] = -1 := by
  have hc : cosine_similarity [(1 : ℝ)] [-1] = -1 := by
    rw [cosine_similarity, if_neg (by norm_num [normL, dotL, Real.sqrt_one])]
    norm_num [normL, dotL, Real.sqrt_one]
  refine ⟨?_, hc⟩
  rw [bestMatch, bestMatchAux, bestMatchAux]
  simp only [hc]
  norm_num

/-- Claim C6 (amended): in continuous-video enrollment with at least 10 raw
frames and at least 5 valid single-face frames, provided the Liveness Engine
judges the retained frames live (the liveness branch runs first and
otherwise reports its own message), an empty front/left/right pose bucket
makes the call fail with the message naming exactly the missing poses, each
with its human instruction. -/
theorem missing_pose_failure (frames : List (Option CFrame))
    (h10 : 10 ≤ frames.length)
    (h5 : 5 ≤ ((validFrames frames).map toLFrame).length)
    (hlive : (check_enhanced_liveness ((validFrames frames).map toLFrame)).is_live = true)
    (hmiss : missingPoses frames ≠ []) :
    register_continuous_video frames =
      { success := false, message := missingPosesMessage (missingPoses frames) } := by
  have hA : ¬frames.length < 10 := by omega
  have hB : ¬((validFrames frames).map toLFrame).length < 5 := by omega
  have hC : (missingPoses frames).isEmpty = false := by
    cases hm : missingPoses frames with
    | nil => exact absurd hm hmiss
    | cons a l => rfl
  simp only [register_continuous_video, hA, hB, hlive, hC, Bool.not_true, Bool.not_false,
    if_false, ite_true, ite_false]
  simp

theorem missing_pose_failure_witness :
    register_continuous_video sampleBurst =
      { success := false, message := missingPosesMessage (missingPoses sampleBurst) } := by
  have hpl : classify_pose ⟨-20, 0, 0⟩ = "left" := by decide
  have hpr : classify_pose ⟨20, 0, 0⟩ = "right" := by decide
  have hval : (validFrames sampleBurst).map toLFrame =
      [⟨[1], (0, 0, 10, 10), "left", 1, 1⟩, ⟨[1], (4, 0, 10, 10), "left", 1, 1⟩,
       ⟨[1], (8, 0, 10, 10), "right", 1, 1⟩, ⟨[1], (12, 0, 10, 10), "right", 1, 1⟩,
       ⟨[1], (24, 0, 10, 10), "right", 1, 1⟩] := by
    norm_num [sampleBurst, validFrames, toLFrame, List.filterMap_cons, hpl, hpr]
  have hc : cosine_similarity [(1 : ℝ)] [1] = 1 :=
    cosine_similarity_self [1] (normL_ne_zero_of_dotL [1] (by norm_num [dotL]))
  have hs16 : Real.sqrt 16 = 4 := by
    rw [show (16 : ℝ) = 4 ^ 2 by norm_num]
    exact Real.sqrt_sq (by norm_num)
  have hs144 : Real.sqrt 144 = 12 := by
    rw [show (144 : ℝ) = 12 ^ 2 by norm_num]
    exact Real.sqrt_sq (by norm_num)
  have hdedup : (["left", "left", "right", "right", "right"] : List String).dedup =
      ["left", "right"] := by decide
  have hlive : (check_enhanced_liveness ((validFrames sampleBurst).map toLFrame)).is_live = true := by
    rw [hval, check_enhanced_liveness, if_neg (by norm_num)]
    simp only [List.map_cons, List.map_nil, List.tail_cons, List.zip_cons_cons,
      List.zip_nil_right, List.length_cons, List.length_nil, List.filter, List.isEmpty_cons,
      hc, hdedup, Bool.not_false]
    norm_num [meanR, varR, stdR, passedChecks, hc, hs16, hs144, Real.sqrt_zero]
  have hmiss : missingPoses sampleBurst = ["front"] := by
    norm_num [missingPoses, poseCaptured, admittedFrames, validFrames, sampleBurst, List.filter,
      List.filterMap_cons, hpl, hpr, List.any]
    decide
  exact missing_pose_failure sampleBurst (by norm_num [sampleBurst])
    (by rw [hval]; norm_num) hlive (by rw [hmiss]; simp)

/-- Claim C6 counterexample: a burst of 10 raw frames with 5 valid
single-face frames and all three required pose buckets empty does fail, but
because these frozen frames also fail liveness — which the source checks
first — the failure message is the liveness message, not one naming the
missing poses. -/
theorem missing_pose_message_masked_by_liveness :
    10 ≤ sampleFrozenBurst.length ∧
    5 ≤ ((validFrames sampleFrozenBurst).map toLFrame).length ∧
    missingPoses sampleFrozenBurst = ["front", "left", "right"] ∧
    register_continuous_video sampleFrozenBurst =
      { success := false, message := "Liveness check failed - no natural movement detected" } ∧
    "Liveness check failed - no natural movement detected" ≠
      missingPosesMessage ["front", "left", "right"] := by
  have hval : (validFrames sampleFrozenBurst).map toLFrame =
      [⟨[1], (0, 0, 10, 10), "front", 0, 0⟩, ⟨[1], (0, 0, 10, 10), "front", 0, 0⟩,
       ⟨[1], (0, 0, 10, 10), "front", 0, 0⟩, ⟨[1], (0, 0, 10, 10), "front", 0, 0⟩,
       ⟨[1], (0, 0, 10, 10), "front", 0, 0⟩] := by
    norm_num [sampleFrozenBurst, validFrames, toLFrame, classify_pose, List.filterMap_cons]
  have hc : cosine_similarity [(1 : ℝ)] [1] = 1 :=
    cosine_similarity_self [1] (normL_ne_zero_of_dotL [1] (by norm_num [dotL]))
  have hlivF :
      (check_enhanced_liveness ((validFrames sampleFrozenBurst).map toLFrame)).is_live = false := by
    rw [hval, check_enhanced_liveness, if_neg (by norm_num)]
    simp only [List.map_cons, List.map_nil, List.tail_cons, List.zip_cons_cons,
      List.zip_nil_right, List.length_cons, List.length_nil, List.filter, List.isEmpty_cons,
      hc, dedup_five]
    norm_num [meanR_four, meanR_five, varR_four, stdR, Real.sqrt_zero, passedChecks, hc,
      Bool.not_false]
  have hmsg :
      (check_enhanced_liveness ((validFrames sampleFrozenBurst).map toLFrame)).message =
        "Liveness check failed - no natural movement detected" := by
    rw [hval, check_enhanced_liveness, if_neg (by norm_num)]
    simp only [List.map_cons, List.map_nil, List.tail_cons, List.zip_cons_cons,
      List.zip_nil_right, List.length_cons, List.length_nil, List.filter, List.isEmpty_cons,
      hc, dedup_five]
    norm_num [meanR_four, meanR_five, varR_four, stdR, Real.sqrt_zero, passedChecks, hc,
      Bool.not_false]
  have hmp : missingPoses sampleFrozenBurst = ["front", "left", "right"] := by
    norm_num [missingPoses, poseCaptured, admittedFrames, validFrames, sampleFrozenBurst,
      List.filter, classify_pose]
  have hlen : ¬sampleFrozenBurst.length < 10 := by norm_num [sampleFrozenBurst]
  have hB5 : ¬((validFrames sampleFrozenBurst).map toLFrame).length < 5 := by
    rw [hval]; norm_num
  refine ⟨by norm_num [sampleFrozenBurst], by rw [hval]; norm_num, hmp, ?_, by decide⟩
  simp only [register_continuous_video, hlen, hlivF, hB5, Bool.not_false, ite_true, ite_false,
    if_false, if_true]
  simp [hmsg]

/-- Claim C2: the quality gate passes exactly when there are no issues, the
aggregate score reaches the profile pass threshold (0.6 lenient / 0.7
strict) and the detection score reaches the profile detection floor
(0.7 lenient / 0.8 strict); in particular passing implies zero issues. -/
theorem check_face_quality_passed_iff (strict : Bool) (imgW imgH : ℕ) (x1 y1 x2 y2 : ℤ)
    (det brightness lapVar contrast : ℚ) :
    (check_face_quality strict imgW imgH x1 y1 x2 y2 det brightness lapVar contrast).passed = true ↔
    ((check_face_quality strict imgW imgH x1 y1 x2 y2 det brightness lapVar contrast).issues = [] ∧
     (if strict then (0.7 : ℚ) else 0.6) ≤
       (check_face_quality strict imgW imgH x1 y1 x2 y2 det brightness lapVar contrast).score ∧
     (if strict then (0.8 : ℚ) else 0.7) ≤ det) := by
  simp only [check_face_quality, Bool.and_eq_true, decide_eq_true_eq, and_assoc]

/-- Claim C3: both decision profiles (single-image verify
`distance < 0.9 ∧ similarity > 0.5`, live-video verify
`distance < 0.85 ∧ similarity > 0.55`) are monotone in similarity at fixed
distance: raising the similarity never turns a match into a non-match. -/
theorem match_decision_monotonic (d s s2 : ℝ) (hs : s ≤ s2) :
    (single_image_match d s → single_image_match d s2) ∧
    (live_video_match d s → live_video_match d s2) := by
  constructor <;> rintro ⟨h1, h2⟩ <;> exact ⟨h1, lt_of_lt_of_le h2 hs⟩

theorem match_decision_monotonic_witness :
    (0.6 : ℝ) ≤ 0.7 ∧ single_image_match 0.5 0.7 :=
  ⟨by norm_num,
   (match_decision_monotonic 0.5 0.6 0.7 (by norm_num)).1
     (by constructor <;> norm_num [single_image_match])⟩

/-- Claim C8: `classify_pose` is total (always one of the five labels) with
pitch dominating yaw: `|pitch| > 15` gives down (pitch > 15) or up; otherwise
`|yaw| < 10` gives front, `yaw < -10` left, `yaw > 10` right; and the five
sample angle inputs classify as stated. -/
theorem classify_pose_total (p : PoseAngles) :
    (classify_pose p = "front" ∨ classify_pose p = "left" ∨ classify_pose p = "right" ∨
     classify_pose p = "up" ∨ classify_pose p = "down") ∧
    (|p.pitch| > 15 → classify_pose p = (if p.pitch > 15 then "down" else "up")) ∧
    (¬|p.pitch| > 15 →
      (|p.yaw| < 10 → classify_pose p = "front") ∧
      (p.yaw < -10 → classify_pose p = "left") ∧
      (p.yaw > 10 → classify_pose p = "right")) ∧
    classify_pose ⟨0, 0, 0⟩ = "front" ∧ classify_pose ⟨-20, 0, 0⟩ = "left" ∧
    classify_pose ⟨20, 0, 0⟩ = "right" ∧ classify_pose ⟨0, 20, 0⟩ = "down" ∧
    classify_pose ⟨0, -20, 0⟩ = "up" := by
  refine ⟨?_, ?_, ?_, by decide, by decide, by decide, by decide, by decide⟩
  · unfold classify_pose
    split_ifs <;> tauto
  · intro h
    unfold classify_pose
    rw [if_pos h]
  · intro h
    refine ⟨fun hy => ?_, fun hy => ?_, fun hy => ?_⟩
    · unfold classify_pose
      rw [if_neg h, if_pos hy]
    · have hny : ¬|p.yaw| < 10 := by
        rw [abs_lt]; push_neg; intro h2; linarith
      unfold classify_pose
      rw [if_neg h, if_neg hny, if_pos hy]
    · have hny : ¬|p.yaw| < 10 := by
        rw [abs_lt]; push_neg; intro h2; linarith
      have hn2 : ¬p.yaw < -10 := by linarith
      unfold classify_pose
      rw [if_neg h, if_neg hny, if_neg hn2, if_pos hy]

theorem classify_pose_total_witness :
    |(20 : ℚ)| > 15 ∧ classify_pose ⟨0, 20, 0⟩ = "down" :=
  ⟨by norm_num, by
    have h := (classify_pose_total ⟨0, 20, 0⟩).2.1 (by norm_num)
    simpa using h⟩

/-- Claim C9: cosine similarity and Euclidean distance are symmetric;
`euclideanDistance(a,a) = 0`; `cosineSimilarity(a,a)` is exactly 1 for any
embedding of nonzero norm, and 0 in the degenerate zero-norm case. -/
theorem similarity_distance_symm_self (a b : List ℝ) :
    cosine_similarity a b = cosine_similarity b a ∧
    euclidean_distance a b = euclidean_distance b a ∧
    euclidean_distance a a = 0 ∧
    (normL a = 0 → cosine_similarity a a = 0) ∧
    (normL a ≠ 0 → cosine_similarity a a = 1) := by
  refine ⟨?_, ?_, ?_, ?_, cosine_similarity_self a⟩
  · by_cases h : normL a = 0 ∨ normL b = 0
    · rw [cosine_similarity, cosine_similarity, if_pos h, if_pos (Or.symm h)]
    · rw [cosine_similarity, cosine_similarity, if_neg h, if_neg (fun hc => h (Or.symm hc)),
        dotL_comm a b, mul_comm (normL a) (normL b)]
  · unfold euclidean_distance normL
    rw [dotL_sub_symm a b]
  · unfold euclidean_distance normL
    rw [dotL_sub_self a, Real.sqrt_zero]
  · intro h
    rw [cosine_similarity, if_pos (Or.inl h)]

/-- Claim C7 counterexample: for a detection whose bbox lies far outside the
image (center offset 5.1 > 1) with detector score 0 the quality score is
negative (-41/50), so `score ∈ [0,1]` fails as stated. -/
theorem quality_score_can_be_negative :
    (check_face_quality false 100 100 300 300 310 310 0 0 0 0).score < 0 := by
  simp only [check_face_quality, faceAreaRatio, centerOffsetX, centerOffsetY]
  norm_num [regionNonempty, pySliceNonempty, min_def, max_def, List.lookup]
  simp [List.lookup]

/-- Claim C7 (amended): the quality score never exceeds 1, and it is
nonnegative provided the detection score and Laplacian variance are
nonnegative (true of any real detector output and image) and the bbox center
lies within the image bounds (both center offsets at most 1). -/
theorem quality_score_bounds (strict : Bool) (imgW imgH : ℕ) (x1 y1 x2 y2 : ℤ)
    (det brightness lapVar contrast : ℚ) :
    (check_face_quality strict imgW imgH x1 y1 x2 y2 det brightness lapVar contrast).score ≤ 1 ∧
    (0 ≤ det → 0 ≤ lapVar → centerOffsetX imgW x1 x2 ≤ 1 → centerOffsetY imgH y1 y2 ≤ 1 →
      0 ≤ (check_face_quality strict imgW imgH x1 y1 x2 y2 det brightness lapVar contrast).score) := by
  have hox : (0 : ℚ) ≤ centerOffsetX imgW x1 x2 := by unfold centerOffsetX; positivity
  have hoy : (0 : ℚ) ≤ centerOffsetY imgH y1 y2 := by unfold centerOffsetY; positivity
  have hmax0 : (0 : ℚ) ≤ max (centerOffsetX imgW x1 x2) (centerOffsetY imgH y1 y2) :=
    le_max_of_le_left hox
  have hmin1 : min det (1 : ℚ) ≤ 1 := min_le_right _ _
  have hsh1 : min (lapVar / 500) (1 : ℚ) ≤ 1 := min_le_right _ _
  constructor
  · cases hr : regionNonempty imgW imgH x1 y1 x2 y2 <;>
      simp only [check_face_quality, hr] <;>
      simp [List.lookup] <;>
      split_ifs <;> (ring_nf at *; linarith)
  · intro hdet hlap h1 h2
    have hmind : (0 : ℚ) ≤ min det 1 := le_min hdet zero_le_one
    have hmax1 : max (centerOffsetX imgW x1 x2) (centerOffsetY imgH y1 y2) ≤ 1 := max_le h1 h2
    have hsh0 : (0 : ℚ) ≤ min (lapVar / 500) 1 := le_min (by positivity) zero_le_one
    cases hr : regionNonempty imgW imgH x1 y1 x2 y2 <;>
      simp only [check_face_quality, hr] <;>
      simp [List.lookup] <;>
      split_ifs <;> (ring_nf at *; linarith)

theorem quality_score_bounds_witness :
    (0 : ℚ) ≤ (check_face_quality false 100 100 40 40 60 60 (1/2) 100 200 50).score :=
  (quality_score_bounds false 100 100 40 40 60 60 (1/2) 100 200 50).2 (by norm_num) (by norm_num)
    (by norm_num [centerOffsetX]) (by norm_num [centerOffsetY])

/-- Claim C10: when the clipped face crop is empty the quality gate appends
none of the lighting/blur/contrast issue strings, the brightness, sharpness
and contrast keys are absent from `details`, and the score consists of the
detection-confidence, face-area and centering terms only. -/
theorem empty_region_skips_image_checks (strict : Bool) (imgW imgH : ℕ) (x1 y1 x2 y2 : ℤ)
    (det brightness lapVar contrast : ℚ)
    (h : regionNonempty imgW imgH x1 y1 x2 y2 = false) :
    (check_face_quality strict imgW imgH x1 y1 x2 y2 det brightness lapVar contrast).issues =
      (if det < (if strict then (0.8 : ℚ) else 0.7) then
        ["Low detection confidence - face may be unclear"] else []) ++
      (if faceAreaRatio imgW imgH x1 y1 x2 y2 < (if strict then (0.08 : ℚ) else 0.05) then
        ["Face too small - move closer to camera"]
       else if faceAreaRatio imgW imgH x1 y1 x2 y2 > 0.7 then
        ["Face too large - move further from camera"] else []) ++
      (if centerOffsetX imgW x1 x2 > (if strict then (0.3 : ℚ) else 0.4) ∨
          centerOffsetY imgH y1 y2 > (if strict then (0.3 : ℚ) else 0.4) then
        ["Face not centered - please center your face"] else []) ∧
    (check_face_quality strict imgW imgH x1 y1 x2 y2 det brightness lapVar contrast).details.lookup
      "brightness" = none ∧
    (check_face_quality strict imgW imgH x1 y1 x2 y2 det brightness lapVar contrast).details.lookup
      "sharpness" = none ∧
    (check_face_quality strict imgW imgH x1 y1 x2 y2 det brightness lapVar contrast).details.lookup
      "contrast" = none ∧
    (check_face_quality strict imgW imgH x1 y1 x2 y2 det brightness lapVar contrast).score =
      min det 1 * 0.3 +
      (if 0.1 ≤ faceAreaRatio imgW imgH x1 y1 x2 y2 ∧ faceAreaRatio imgW imgH x1 y1 x2 y2 ≤ 0.5 then
        1 * 0.2
       else if 0.05 ≤ faceAreaRatio imgW imgH x1 y1 x2 y2 ∧
          faceAreaRatio imgW imgH x1 y1 x2 y2 ≤ 0.7 then 0.5 * 0.2 else 0) +
      (1 - max (centerOffsetX imgW x1 x2) (centerOffsetY imgH y1 y2)) * 0.2 := by
  simp only [check_face_quality, h]
  norm_num [List.lookup]
  simp [List.lookup]

theorem empty_region_skips_image_checks_witness :
    (check_face_quality false 100 100 300 300 310 310 1 2 3 4).details.lookup "brightness" = none :=
  (empty_region_skips_image_checks false 100 100 300 300 310 310 1 2 3 4 (by decide)).2.1

theorem similarity_distance_symm_self_witness :
    normL [(1 : ℝ)] ≠ 0 ∧ cosine_similarity [(1 : ℝ)] [1] = 1 := by
  have h : normL [(1 : ℝ)] ≠ 0 := by
    norm_num [normL, dotL, Real.sqrt_one]
  exact ⟨h, (similarity_distance_symm_self [1] [1]).2.2.2.2 h⟩
